import Mathlib

/-!
Shallow embedding of the conreg repository (a Raft-replicated configuration
and service-registry server with a Rust client SDK) for checking its
natural-language specification.  Each definition mirrors one function of the
source; machine integers are modelled as Int/Nat, timestamps as integer
millisecond or second counts, database tables and concurrent maps as
association lists, and fallible code as Option/Except.
-/

namespace Conreg

/- ----------------------------------------------------------------------
YAML values, from serde_yaml::Value as used by conreg-client/src/config.rs.
Mappings keep insertion order (serde_yaml uses an IndexMap); keys are full
YAML values.  Floating point numbers are out of scope, so Number is an Int.
---------------------------------------------------------------------- -/

mutual
/-- Model of serde_yaml::Value (floats omitted; Number carries an Int). -/
inductive YamlValue where
  | null : YamlValue
  | bool (b : Bool) : YamlValue
  | num (n : Int) : YamlValue
  | str (s : String) : YamlValue
  | seq (items : YamlList) : YamlValue
  | map (entries : YamlMap) : YamlValue

/-- Sequence of YAML values (a specialised list avoids nested induction). -/
inductive YamlList where
  | nil : YamlList
  | cons (head : YamlValue) (tail : YamlList) : YamlList

/-- Ordered key-value entries of a YAML mapping. -/
inductive YamlMap where
  | nil : YamlMap
  | cons (key : YamlValue) (val : YamlValue) (tail : YamlMap) : YamlMap
end

deriving instance DecidableEq for YamlValue
deriving instance Repr for YamlValue

namespace YamlMap

/-- Does the mapping contain the key (Mapping::contains_key)? -/
def containsKey : YamlMap → YamlValue → Bool
  | nil, _ => false
  | cons k _ tail, key => if k = key then true else containsKey tail key

/-- First value stored under the key (Mapping::get). -/
def find : YamlMap → YamlValue → Option YamlValue
  | nil, _ => none
  | cons k v tail, key => if k = key then some v else find tail key

/-- Append an entry at the end (IndexMap insert of an absent key). -/
def append : YamlMap → YamlValue → YamlValue → YamlMap
  | nil, key, val => cons key val nil
  | cons k v tail, key, val => cons k v (append tail key val)

/-- The keys of the mapping in order. -/
def keys : YamlMap → List YamlValue
  | nil => []
  | cons k _ tail => k :: keys tail

end YamlMap

/- ----------------------------------------------------------------------
Configs::merge_yaml_values (conreg-client/src/config.rs): recursively merge
two YAML values; when both are mappings the source entries are merged into
the target one by one (recursing on keys already present, appending new
keys); in every other case the source value replaces the target.
---------------------------------------------------------------------- -/

mutual
/-- Configs::merge_yaml_values: the later (source) value wins except that
two mappings are merged entrywise. -/
def mergeYamlValues : YamlValue → YamlValue → YamlValue
  | YamlValue.map t, YamlValue.map s => YamlValue.map (mergeEntries t s)
  | _, s => s
termination_by _ b => (sizeOf b, 0)

/-- Fold the source mapping entries into the target mapping, in order. -/
def mergeEntries (t : YamlMap) : YamlMap → YamlMap
  | YamlMap.nil => t
  | YamlMap.cons k v rest =>
    let t2 :=
      if t.containsKey k then mergeIntoExisting t k v else t.append k v
    mergeEntries t2 rest
termination_by s => (sizeOf s, 0)

/-- Replace every entry of the target carrying the key by its recursive
merge with the new value (Mapping::get_mut followed by merge). -/
def mergeIntoExisting : YamlMap → YamlValue → YamlValue → YamlMap
  | YamlMap.nil, _, _ => YamlMap.nil
  | YamlMap.cons k0 v0 tail, k, v =>
    if k0 = k then YamlMap.cons k0 (mergeYamlValues v0 v) (mergeIntoExisting tail k v)
    else YamlMap.cons k0 v0 (mergeIntoExisting tail k v)
termination_by m _ v => (sizeOf v, 1 + sizeOf m)

end

/- ----------------------------------------------------------------------
Configs::flatten_yaml_value (conreg-client/src/config.rs): flatten a YAML
value into a map from dotted paths to leaf values.  The result HashMap is
modelled as an association list with overwrite-on-insert semantics.
---------------------------------------------------------------------- -/

/-- HashMap::insert on an association list: overwrite the first entry with
the key, or append when absent. -/
def insertFlat : List (String × YamlValue) → String → YamlValue →
    List (String × YamlValue)
  | [], key, val => [(key, val)]
  | (k, v) :: rest, key, val =>
    if k = key then (k, val) :: rest else (k, v) :: insertFlat rest key val

/-- Key rendering used by the flattener: strings verbatim, numbers via
to_string, every other key kind becomes "unknown". -/
def yamlKeyStr : YamlValue → String
  | YamlValue.str s => s
  | YamlValue.num n => toString n
  | _ => "unknown"

/-- Is the value a YAML mapping node? -/
def YamlValue.isMapping : YamlValue → Bool
  | YamlValue.map _ => true
  | _ => false

mutual
/-- Configs::flatten_yaml_value: mapping nodes recurse with the key
appended to the dotted path, every other node is recorded as a leaf. -/
def flattenYamlValue (result : List (String × YamlValue)) (pre : String) :
    YamlValue → List (String × YamlValue)
  | YamlValue.map entries => flattenEntries result pre entries
  | v => insertFlat result pre v
termination_by v => (sizeOf v, 0)

/-- Walk the entries of a mapping node in order, flattening each value
under the extended prefix. -/
def flattenEntries (result : List (String × YamlValue)) (pre : String) :
    YamlMap → List (String × YamlValue)
  | YamlMap.nil => result
  | YamlMap.cons k v rest =>
    let ks := yamlKeyStr k
    let np := if pre = "" then ks else pre ++ "." ++ ks
    flattenEntries (flattenYamlValue result np v) pre rest
termination_by m => (sizeOf m, 1)
end

/- ----------------------------------------------------------------------
Configs::from_contents (conreg-client/src/config.rs).  The source receives
raw YAML strings, skips blank ones, parses the rest with serde_yaml and
folds them into an initially empty mapping; parsing is external, so the
model receives the already parsed values.
---------------------------------------------------------------------- -/

/-- The two views built by Configs::from_contents: the flattened map and
the merged raw document. -/
structure Configs where
  configs : List (String × YamlValue)
  content : YamlValue
deriving Repr, DecidableEq

namespace Configs

/-- Configs::from_contents over already parsed documents: merge them in
listed order into an empty mapping, then flatten the result. -/
def from_contents (contents : List YamlValue) : Configs :=
  let merged := contents.foldl mergeYamlValues (YamlValue.map YamlMap.nil)
  { configs := flattenYamlValue [] "" merged, content := merged }

end Configs

/- ----------------------------------------------------------------------
Service discovery engine, from src/server/src/discovery/discovery.rs.
Timestamps are integer counts of seconds; the DashMap from service id to
instance vector is an association list.
---------------------------------------------------------------------- -/

/-- InstanceStatus from discovery.rs; Sick carries the formatted message
string exactly as the source builds it. -/
inductive InstanceStatus where
  | ready : InstanceStatus
  | up : InstanceStatus
  | sick (msg : String) : InstanceStatus
  | down : InstanceStatus
  | offline : InstanceStatus
deriving DecidableEq, Repr

/-- ServiceInstance from discovery.rs. -/
structure ServiceInstance where
  id : String
  service_id : String
  ip : String
  port : Nat
  status : InstanceStatus
  meta : List (String × String)
  last_heartbeat : Int
  lost_heartbeats : Nat
deriving DecidableEq, Repr

/-- HeartbeatResult from discovery.rs. -/
inductive HeartbeatResult where
  | Ok : HeartbeatResult
  | NoInstanceFound : HeartbeatResult
deriving DecidableEq, Repr

namespace ServiceInstance

/-- ServiceInstance::update_heartbeat - stamp the current time. -/
def update_heartbeat (inst : ServiceInstance) (now : Int) : ServiceInstance :=
  { inst with last_heartbeat := now }

/-- ServiceInstance::is_heartbeat_timeout - strictly more than the timeout
has elapsed since the last heartbeat. -/
def is_heartbeat_timeout (inst : ServiceInstance) (now timeout : Int) : Bool :=
  now - inst.last_heartbeat > timeout

/-- ServiceInstance::is_available - only status Up counts as available. -/
def is_available (inst : ServiceInstance) : Bool :=
  inst.status = InstanceStatus.up

end ServiceInstance

/-- The Discovery instance map: service_id to its instance vector. -/
abbrev DiscoveryServices := List (String × List ServiceInstance)

namespace Discovery

/-- DashMap::get on the service map. -/
def getService : DiscoveryServices → String → Option (List ServiceInstance)
  | [], _ => none
  | (sid, insts) :: rest, key =>
    if sid = key then some insts else getService rest key

/-- Replace the instance vector stored under a service id. -/
def setService : DiscoveryServices → String → List ServiceInstance →
    DiscoveryServices
  | [], _, _ => []
  | (sid, insts) :: rest, key, newInsts =>
    if sid = key then (sid, newInsts) :: rest
    else (sid, insts) :: setService rest key newInsts

/-- The body of Discovery::heartbeat for one instance vector: the first
instance with the id gets a fresh last_heartbeat and status Up (the
lost_heartbeats counter is left untouched by the source). -/
def heartbeatInstances (now : Int) (instance_id : String) :
    List ServiceInstance → (List ServiceInstance × HeartbeatResult)
  | [] => ([], HeartbeatResult.NoInstanceFound)
  | inst :: rest =>
    if inst.id = instance_id then
      (({ inst.update_heartbeat now with status := InstanceStatus.up }) :: rest,
        HeartbeatResult.Ok)
    else
      let (rest2, r) := heartbeatInstances now instance_id rest
      (inst :: rest2, r)

/-- Discovery::heartbeat: update the matching instance of the service, or
report NoInstanceFound when the service or instance is unknown. -/
def heartbeat (services : DiscoveryServices) (now : Int)
    (service_id instance_id : String) :
    DiscoveryServices × HeartbeatResult :=
  match getService services service_id with
  | none => (services, HeartbeatResult.NoInstanceFound)
  | some insts =>
    let (insts2, r) := heartbeatInstances now instance_id insts
    (setService services service_id insts2, r)

/-- One instance under the heartbeat-check timer body: three or more lost
heartbeats force status Down; otherwise a timed-out heartbeat increments
the counter and sets status Sick with the formatted message. -/
def checkInstance (now timeout : Int) (inst : ServiceInstance) :
    ServiceInstance :=
  if inst.lost_heartbeats ≥ 3 then
    { inst with status := InstanceStatus.down }
  else if inst.is_heartbeat_timeout now timeout then
    { inst with
      lost_heartbeats := inst.lost_heartbeats + 1,
      status := InstanceStatus.sick
        ("lost heartbeats(" ++ toString (inst.lost_heartbeats + 1) ++ ")") }
  else inst

/-- One tick of Discovery::start_heartbeat_check_timer over every instance
of every service. -/
def checkTick (now timeout : Int) (services : DiscoveryServices) :
    DiscoveryServices :=
  services.map (fun p => (p.1, p.2.map (checkInstance now timeout)))

/-- One tick of Discovery::start_cleanup_timer: drop every instance whose
status is Down. -/
def cleanupTick (services : DiscoveryServices) : DiscoveryServices :=
  services.map (fun p => (p.1, p.2.filter (fun i => i.status ≠ InstanceStatus.down)))

/-- Discovery::get_service_instances: the full instance view. -/
def get_service_instances (services : DiscoveryServices) (service_id : String) :
    List ServiceInstance :=
  (getService services service_id).getD []

/-- Discovery::get_available_service_instances: only available (Up)
instances are returned to clients. -/
def get_available_service_instances (services : DiscoveryServices)
    (service_id : String) : List ServiceInstance :=
  (get_service_instances services service_id).filter (·.is_available)

/-- Discovery::register_instance: drop any old instance with the same id,
then push the new one (service entry created when absent). -/
def register_instance (services : DiscoveryServices)
    (inst : ServiceInstance) : DiscoveryServices :=
  match getService services inst.service_id with
  | none => services ++ [(inst.service_id, [inst])]
  | some insts =>
    setService services inst.service_id
      (insts.filter (fun i => i.id ≠ inst.id) ++ [inst])

end Discovery

/- ----------------------------------------------------------------------
Config store and namespace store, from src/server/src/config/server/mod.rs
and src/server/src/namespace/server/mod.rs.  SQL tables are association
lists of rows; DateTime values are integer millisecond timestamps.  The
MD5 digest of the external md5 crate is an uninterpreted parameter
md5f : String -> String, and the id generator id::next() is passed in as
the value it returns.
---------------------------------------------------------------------- -/

/-- ConfigEntry from src/server/src/config/server/mod.rs. -/
structure ConfigEntry where
  id_ : Int
  namespace_id : String
  id : String
  content : String
  create_time : Int
  update_time : Int
  description : Option String
  format : String
  md5 : String
deriving DecidableEq, Repr

/-- Namespace from src/server/src/namespace/server/mod.rs. -/
structure Namespace where
  id : String
  name : String
  description : Option String
  is_auth : Bool
  auth_token : Option String
  create_time : Int
  update_time : Int
deriving DecidableEq, Repr

/-- RaftRequest from src/server/src/raft/mod.rs. -/
inductive RaftRequest where
  | Set (key value : String)
  | Delete (key : String)
  | SetConfig (entry : ConfigEntry)
  | UpdateConfig (entry : ConfigEntry)
  | DeleteConfig (namespace_id id : String)
  | UpsertNamespace (ns : Namespace)
  | DeleteNamespace (id : String)
deriving DecidableEq, Repr

/-- The durable rows plus the replicated KV map owned by one replica. -/
structure ReplicaState where
  kv : List (String × String)
  configs : List ConfigEntry
  config_history : List ConfigEntry
  namespaces : List Namespace
deriving DecidableEq, Repr

namespace ConfigManager

/-- SELECT * FROM config WHERE namespace_id = ? AND id = ? (first row). -/
def get_config (st : ReplicaState) (namespace_id config_id : String) :
    Option ConfigEntry :=
  st.configs.find? (fun c => c.namespace_id = namespace_id && c.id = config_id)

/-- ConfigManager::append_history: the history row is the entry with its
id_ replaced by base id_ plus the update time in milliseconds. -/
def append_history (st : ReplicaState) (entry : ConfigEntry) : ReplicaState :=
  { st with config_history :=
      st.config_history ++ [{ entry with id_ := entry.id_ + entry.update_time }] }

/-- ConfigManager::insert_config: insert the row, then append history. -/
def insert_config (st : ReplicaState) (entry : ConfigEntry) : ReplicaState :=
  append_history { st with configs := st.configs ++ [entry] } entry

/-- ConfigManager::update_config: update content, description, update
time, format and md5 of the row with the same id_, then append history. -/
def update_config (st : ReplicaState) (entry : ConfigEntry) : ReplicaState :=
  append_history
    { st with configs := st.configs.map (fun c =>
        if c.id_ = entry.id_ then
          { c with
            content := entry.content,
            description := entry.description,
            update_time := entry.update_time,
            format := entry.format,
            md5 := entry.md5 }
        else c) }
    entry

/-- ConfigManager::delete_config: drop the current row and its history. -/
def delete_config (st : ReplicaState) (namespace_id config_id : String) :
    ReplicaState :=
  { st with
    configs := st.configs.filter
      (fun c => ¬(c.namespace_id = namespace_id ∧ c.id = config_id)),
    config_history := st.config_history.filter
      (fun c => ¬(c.namespace_id = namespace_id ∧ c.id = config_id)) }

/-- ConfigManager::upsert_config_and_sync: compute the MD5 of the new
content; equal stored MD5 means success with no replicated command, a
missing row emits SetConfig with a fresh id, an existing row emits
UpdateConfig keeping id_ and create_time. -/
def upsert_config_and_sync (md5f : String → String) (st : ReplicaState)
    (namespace_id config_id content : String) (description : Option String)
    (format : String) (nextId now : Int) : Option RaftRequest :=
  let config := get_config st namespace_id config_id
  let md5v := md5f content
  if config.isSome ∧ (config.map (·.md5)) = some md5v then
    none
  else
    match config with
    | none =>
      some (RaftRequest.SetConfig
        { id_ := nextId, namespace_id := namespace_id, id := config_id,
          content := content, create_time := now, update_time := now,
          description := description, format := format, md5 := md5v })
    | some old =>
      some (RaftRequest.UpdateConfig
        { id_ := old.id_, namespace_id := namespace_id, id := config_id,
          content := content, create_time := old.create_time,
          update_time := now, description := description, format := format,
          md5 := md5v })

end ConfigManager

namespace NamespaceManager

/-- SELECT * FROM namespace WHERE id = ? (the lazy cache is transparent:
it returns the same row the table holds). -/
def get_namespace (st : ReplicaState) (id : String) : Option Namespace :=
  st.namespaces.find? (fun n => n.id = id)

/-- NamespaceManager::upsert_namespace: insert a new row or update the
existing one. -/
def upsert_namespace (st : ReplicaState) (ns : Namespace) : ReplicaState :=
  match get_namespace st ns.id with
  | none => { st with namespaces := st.namespaces ++ [ns] }
  | some _ =>
    { st with namespaces := st.namespaces.map (fun n =>
        if n.id = ns.id then
          { n with
            name := ns.name,
            description := ns.description,
            is_auth := ns.is_auth,
            auth_token := ns.auth_token,
            update_time := ns.update_time }
        else n) }

/-- NamespaceManager::delete_namespace: cascade delete the configs of the
namespace, then the namespace row itself. -/
def delete_namespace (st : ReplicaState) (id : String) : ReplicaState :=
  { st with
    configs := st.configs.filter (fun c => c.namespace_id ≠ id),
    namespaces := st.namespaces.filter (fun n => n.id ≠ id) }

/-- NamespaceManager::delete_namespace_and_sync: the reserved namespace
public is rejected before any command is built; every other id proceeds to
replication as a DeleteNamespace command. -/
def delete_namespace_and_sync (id : String) : Except String RaftRequest :=
  if id = "public" then
    Except.error
      "public is the default reserved namespace and cannot be deleted."
  else
    Except.ok (RaftRequest.DeleteNamespace id)

/-- NamespaceManager::auth: a request fails only when the namespace exists,
requires auth, and its stored token differs from the presented one. -/
def auth (st : ReplicaState) (namespace_id : String)
    (auth_token : Option String) : Bool :=
  match get_namespace st namespace_id with
  | some ns => if ns.is_auth && ns.auth_token ≠ auth_token then false else true
  | none => true

end NamespaceManager

/-- Apply one committed RaftRequest to the replica state, following the
apply path in src/server/src/raft/store/mod.rs and the event handler in
src/server/src/event/mod.rs. -/
def applyRaftRequest (st : ReplicaState) : RaftRequest → ReplicaState
  | RaftRequest.Set key value => { st with kv := insertKv st.kv key value }
  | RaftRequest.Delete key =>
    { st with kv := st.kv.filter (fun p => p.1 ≠ key) }
  | RaftRequest.SetConfig entry => ConfigManager.insert_config st entry
  | RaftRequest.UpdateConfig entry => ConfigManager.update_config st entry
  | RaftRequest.DeleteConfig namespace_id id =>
    ConfigManager.delete_config st namespace_id id
  | RaftRequest.UpsertNamespace ns => NamespaceManager.upsert_namespace st ns
  | RaftRequest.DeleteNamespace id => NamespaceManager.delete_namespace st id
where
  insertKv : List (String × String) → String → String → List (String × String)
    | [], key, value => [(key, value)]
    | (k, v) :: rest, key, value =>
      if k = key then (k, value) :: rest else (k, v) :: insertKv rest key value

/-- Apply a committed log prefix in order. -/
def applyLog (st : ReplicaState) (log : List RaftRequest) : ReplicaState :=
  log.foldl applyRaftRequest st

namespace ConfigManager

/-- Run the admin upsert and apply whatever command it replicates to the
local replica (no command when the MD5 is unchanged). -/
def upsert_then_apply (md5f : String → String) (st : ReplicaState)
    (namespace_id config_id content : String) (description : Option String)
    (format : String) (nextId now : Int) : ReplicaState :=
  match upsert_config_and_sync md5f st namespace_id config_id content
      description format nextId now with
  | some cmd => applyRaftRequest st cmd
  | none => st

/-- Number of current config rows stored for the key. -/
def countConfigs (st : ReplicaState) (namespace_id config_id : String) : Nat :=
  (st.configs.filter
    (fun c => c.namespace_id = namespace_id && c.id = config_id)).length

/-- Number of history rows stored for the key. -/
def countHistory (st : ReplicaState) (namespace_id config_id : String) : Nat :=
  (st.config_history.filter
    (fun c => c.namespace_id = namespace_id && c.id = config_id)).length

end ConfigManager

/- ----------------------------------------------------------------------
HTTP surface, from conreg-server/src/protocol/res.rs,
conreg-server/src/auth/mod.rs and conreg-server/src/config/server/api.rs.
---------------------------------------------------------------------- -/

/-- The uniform JSON envelope Res from protocol/res.rs. -/
structure Res (α : Type) where
  code : Int
  msg : String
  data : Option α
deriving DecidableEq, Repr

/-- Res::success - code 0 with data. -/
def Res.success {α : Type} (data : α) : Res α :=
  { code := 0, msg := "", data := some data }

/-- The header and query material of one client HTTP request that the
config read path can observe. -/
structure HttpRequest where
  namespace_id : String
  id : String
  ns_token : Option String
  console_header : Bool
  admin_bearer_ok : Bool
deriving DecidableEq, Repr

/-- Outcome of routing a request: either the handler ran and produced an
envelope, or a request guard rejected the request with 401. -/
inductive HttpOutcome (α : Type) where
  | ok (res : Res α)
  | unauthorized
deriving DecidableEq, Repr

/-- The FromRequest guard for NamespaceAuth in conreg-server/src/auth:
console requests carrying a valid admin bearer pass outright, otherwise
the X-NS-Token header is checked through NamespaceManager::auth. -/
def namespaceAuthGuard (st : ReplicaState) (req : HttpRequest) : Bool :=
  if req.console_header && req.admin_bearer_ok then true
  else NamespaceManager.auth st req.namespace_id req.ns_token

/-- The GET /config/get route of conreg-server/src/config/server/api.rs.
Its handler signature declares only the two query parameters and no
NamespaceAuth request guard, so the headers of the request are never
consulted and the handler always runs. -/
def config_get_route (st : ReplicaState) (req : HttpRequest) :
    HttpOutcome (Option ConfigEntry) :=
  HttpOutcome.ok
    (Res.success (ConfigManager.get_config st req.namespace_id req.id))

/- ----------------------------------------------------------------------
Long-poll watch, from conreg-server/src/config/server/api.rs.  The
broadcast events a subscriber receives form a time-stamped list (seconds
since subscription, ascending); the handler performs a single recv with a
29 second timeout.
---------------------------------------------------------------------- -/

/-- The change event published on apply, carrying the namespace and the
changed config id. -/
structure ConfigEvent where
  namespace_id : String
  config_id : String
deriving DecidableEq, Repr

/-- The GET /config/watch route: one recv with a 29 s timeout; the result
is the pair of the second at which the response is sent and the envelope.
The first event received inside the window ends the wait: a matching
namespace yields its config id and any other namespace yields empty.  No
event inside the window yields empty at 29 s (a closed or lagged channel
also yields empty, which the model folds into the empty-stream case). -/
def watch (namespace_id : String) (events : List (Nat × ConfigEvent)) :
    Nat × Res (Option String) :=
  match events with
  | [] => (29, Res.success none)
  | (t, e) :: _ =>
    if t ≤ 29 then
      (t, Res.success
        (if e.namespace_id = namespace_id then some e.config_id else none))
    else (29, Res.success none)

/- ----------------------------------------------------------------------
Client SDK instance and weight helper, from src/client/src/protocol/mod.rs.
The meta map carries serde_yaml values keyed by strings.
---------------------------------------------------------------------- -/

/-- serde_yaml Value::as_u64: only a non-negative integer number converts. -/
def YamlValue.as_u64 : YamlValue → Option Nat
  | YamlValue.num n => if 0 ≤ n then some n.toNat else none
  | _ => none

/-- Instance from src/client/src/protocol/mod.rs. -/
structure Instance where
  id : String
  service_id : String
  ip : String
  port : Nat
  meta : List (String × YamlValue)
deriving DecidableEq, Repr

/-- Instance::get_weight: the weight meta value read as a u64, defaulting
to the number 1 when the key is absent; the final unwrap of the source
panics when the stored value is not a u64, modelled as none. -/
def Instance.get_weight (inst : Instance) : Option Nat :=
  (((inst.meta.find? (fun p => p.1 = "weight")).map (·.2)).getD
    (YamlValue.num 1)).as_u64

/-- The timer constants of DiscoveryManager::try_get_discovery: heartbeat
check every 6 s with a 5 s timeout, cleanup every 10 s. -/
def heartbeat_check_interval : Int := 6

/-- Heartbeat timeout passed to start_heartbeat_check_timer. -/
def heartbeat_timeout : Int := 5

/-- Cleanup interval passed to start_cleanup_timer. -/
def cleanup_interval : Int := 10

/- ======================================================================
Concrete values used by witnesses and counterexamples
====================================================================== -/

/-- The empty replica state. -/
def st0 : ReplicaState :=
  { kv := [], configs := [], config_history := [], namespaces := [] }

/-- A concrete config entry. -/
def entry0 : ConfigEntry :=
  { id_ := 7, namespace_id := "public", id := "t.yaml", content := "a: 1",
    create_time := 100, update_time := 250, description := none,
    format := "yaml", md5 := "m" }

/-- A namespace that requires auth with stored token T. -/
def nsAuth : Namespace :=
  { id := "ns1", name := "ns one", description := none, is_auth := true,
    auth_token := some "T", create_time := 0, update_time := 0 }

/-- A config entry stored under the token-guarded namespace. -/
def entryNs1 : ConfigEntry :=
  { id_ := 1, namespace_id := "ns1", id := "app.yaml", content := "a: 1",
    create_time := 0, update_time := 0, description := none,
    format := "yaml", md5 := "m1" }

/-- Replica state holding the guarded namespace and its config. -/
def stAuth : ReplicaState :=
  { kv := [], configs := [entryNs1], config_history := [],
    namespaces := [nsAuth] }

/-- A client GET /config/get request presenting the wrong token and no
console identity. -/
def reqWrongToken : HttpRequest :=
  { namespace_id := "ns1", id := "app.yaml", ns_token := some "WRONG",
    console_header := false, admin_bearer_ok := false }

/-- The same request with the X-NS-Token header missing entirely. -/
def reqNoToken : HttpRequest :=
  { namespace_id := "ns1", id := "app.yaml", ns_token := none,
    console_header := false, admin_bearer_ok := false }

/-- A service instance that has missed three heartbeat-check periods. -/
def instSick3 : ServiceInstance :=
  { id := "i1", service_id := "svc", ip := "10.0.0.1", port := 9000,
    status := InstanceStatus.sick "lost heartbeats(3)", meta := [],
    last_heartbeat := 0, lost_heartbeats := 3 }

/-- The same instance right after Discovery::heartbeat at second 100: the
source stamps the time and sets status Up but leaves lost_heartbeats
untouched. -/
def instUp3 : ServiceInstance :=
  { instSick3 with last_heartbeat := 100, status := InstanceStatus.up }

/-- A freshly registered instance: status Ready, no lost heartbeats,
registered (and last stamped) at second 0. -/
def instReady : ServiceInstance :=
  { id := "i1", service_id := "svc", ip := "10.0.0.1", port := 9000,
    status := InstanceStatus.ready, meta := [], last_heartbeat := 0,
    lost_heartbeats := 0 }

/-- The services map after registering instReady, missing the check ticks
at seconds 6 and 12 (timeout 5 s), and then heartbeating at second 13: the
run that produces an Up instance whose lost_heartbeats is 2. -/
def c6AfterRecovery : DiscoveryServices :=
  (Discovery.heartbeat
    (Discovery.checkTick 12 heartbeat_timeout
      (Discovery.checkTick 6 heartbeat_timeout
        (Discovery.register_instance [] instReady)))
    13 "svc" "i1").1

/-- The Up instance with two lost heartbeats reached by c6AfterRecovery. -/
def instUp2 : ServiceInstance :=
  { instReady with
    last_heartbeat := 13
    status := InstanceStatus.up
    lost_heartbeats := 2 }

/-- An Up instance with no lost heartbeats (fresh after its first
heartbeat at second 0). -/
def instUpFresh : ServiceInstance :=
  { instReady with status := InstanceStatus.up }

/-- The document a: (b: (c: 1)). -/
def abcDoc : YamlValue :=
  YamlValue.map (YamlMap.cons (YamlValue.str "a")
    (YamlValue.map (YamlMap.cons (YamlValue.str "b")
      (YamlValue.map (YamlMap.cons (YamlValue.str "c") (YamlValue.num 1)
        YamlMap.nil)) YamlMap.nil)) YamlMap.nil)

/-- The document a: 1, b: (x: 1). -/
def docA : YamlValue :=
  YamlValue.map (YamlMap.cons (YamlValue.str "a") (YamlValue.num 1)
    (YamlMap.cons (YamlValue.str "b")
      (YamlValue.map (YamlMap.cons (YamlValue.str "x") (YamlValue.num 1)
        YamlMap.nil)) YamlMap.nil))

/-- The document b: (x: 2, y: 3). -/
def docB : YamlValue :=
  YamlValue.map (YamlMap.cons (YamlValue.str "b")
    (YamlValue.map (YamlMap.cons (YamlValue.str "x") (YamlValue.num 2)
      (YamlMap.cons (YamlValue.str "y") (YamlValue.num 3) YamlMap.nil)))
    YamlMap.nil)

/-- The merge of docA and docB: a: 1, b: (x: 2, y: 3). -/
def docAB : YamlValue :=
  YamlValue.map (YamlMap.cons (YamlValue.str "a") (YamlValue.num 1)
    (YamlMap.cons (YamlValue.str "b")
      (YamlValue.map (YamlMap.cons (YamlValue.str "x") (YamlValue.num 2)
        (YamlMap.cons (YamlValue.str "y") (YamlValue.num 3) YamlMap.nil)))
      YamlMap.nil))

/- ======================================================================
Theorems
====================================================================== -/

/-- C7: delete_namespace_and_sync rejects the reserved id public with an
error before any DeleteNamespace command is built, so nothing reaches Raft
and applying the (empty) batch of emitted commands leaves the replica
state and the namespace table unchanged; any other id proceeds to
replication as a DeleteNamespace command. -/
theorem C7_reserved_namespace (id : String) (st : ReplicaState)
    (h : id ≠ "public") :
    (NamespaceManager.delete_namespace_and_sync "public" =
      Except.error
        "public is the default reserved namespace and cannot be deleted.")
    ∧ applyLog st [] = st
    ∧ NamespaceManager.delete_namespace_and_sync id =
        Except.ok (RaftRequest.DeleteNamespace id) := by
  refine ⟨rfl, rfl, ?_⟩
  simp [NamespaceManager.delete_namespace_and_sync, h]

/-- Witness for C7 at the concrete namespace id ns2. -/
theorem C7_reserved_namespace_witness :
    ("ns2" : String) ≠ "public"
    ∧ ((NamespaceManager.delete_namespace_and_sync "public" =
        Except.error
          "public is the default reserved namespace and cannot be deleted.")
      ∧ applyLog st0 [] = st0
      ∧ NamespaceManager.delete_namespace_and_sync "ns2" =
          Except.ok (RaftRequest.DeleteNamespace "ns2")) :=
  ⟨by decide, C7_reserved_namespace "ns2" st0 (by decide)⟩

/-- C1: the claim requires GET /config/get on a namespace with
is_auth=true and auth_token=T to fail with 401 Unauthorized for a wrong or
missing X-NS-Token.  NamespaceManager::auth does implement exactly the
claimed check (it denies the wrong and the missing token and passes the
stored one), and the NamespaceAuth request guard would enforce it, but the
get route of conreg-server/src/config/server/api.rs declares no
NamespaceAuth guard, so the handler answers 200 with the config entry no
matter which token the request carries. -/
theorem C1_token_gate_code_bug :
    NamespaceManager.auth stAuth "ns1" (some "T") = true
    ∧ NamespaceManager.auth stAuth "ns1" (some "WRONG") = false
    ∧ NamespaceManager.auth stAuth "ns1" none = false
    ∧ namespaceAuthGuard stAuth reqWrongToken = false
    ∧ namespaceAuthGuard stAuth reqNoToken = false
    ∧ config_get_route stAuth reqWrongToken =
        HttpOutcome.ok (Res.success (some entryNs1))
    ∧ config_get_route stAuth reqNoToken =
        HttpOutcome.ok (Res.success (some entryNs1)) := by
  decide

/-- C2 counterexample: while watch("mine") is waiting, an event for the
namespace other arrives after 5 s and a matching event for mine follows at
10 s; the claim demands that the foreign event not end the wait and that
the changed config id m be returned, but the handler answers at the 5 s
mark with empty data. -/
theorem C2_watch_counterexample :
    watch "mine"
      [(5, { namespace_id := "other", config_id := "c" }),
        (10, { namespace_id := "mine", config_id := "m" })] =
      (5, Res.success none)
    ∧ (5 : Nat) < 29
    ∧ (Res.success none : Res (Option String)) ≠ Res.success (some "m") := by
  decide

/-- C2 amended: the watch handler performs a single 29 s-bounded receive,
so it always returns within 30 s; with no event in the window it returns
empty at 29 s; the first received event always ends the wait - with the
changed config id when its namespace matches and with empty data when it
does not. -/
theorem C2_watch_single_recv (ns : String) (t : Nat) (e : ConfigEvent)
    (rest : List (Nat × ConfigEvent)) :
    (∀ events : List (Nat × ConfigEvent), (watch ns events).1 < 30)
    ∧ watch ns [] = (29, Res.success none)
    ∧ (t ≤ 29 → e.namespace_id = ns →
        watch ns ((t, e) :: rest) = (t, Res.success (some e.config_id)))
    ∧ (t ≤ 29 → e.namespace_id ≠ ns →
        watch ns ((t, e) :: rest) = (t, Res.success none))
    ∧ (t > 29 → watch ns ((t, e) :: rest) = (29, Res.success none)) := by
  refine ⟨?_, rfl, ?_, ?_, ?_⟩
  · intro events
    cases events with
    | nil => simp [watch]
    | cons p rest2 =>
      simp only [watch]
      split
      · omega
      · omega
  · intro ht hm
    simp [watch, ht, hm]
  · intro ht hm
    simp [watch, ht, hm]
  · intro ht
    simp [watch]
    omega

/-- Witness for C2 amended at a concrete namespace and event stream. -/
theorem C2_watch_single_recv_witness :
    ((1 : Nat) ≤ 29 ∧
      ({ namespace_id := "mine", config_id := "m" } : ConfigEvent).namespace_id =
        "mine")
    ∧ ((∀ events : List (Nat × ConfigEvent), (watch "mine" events).1 < 30)
      ∧ watch "mine" [] = (29, Res.success none)
      ∧ ((1 : Nat) ≤ 29 →
          ({ namespace_id := "mine", config_id := "m" } : ConfigEvent).namespace_id = "mine" →
          watch "mine" [(1, { namespace_id := "mine", config_id := "m" })] =
            (1, Res.success (some "m")))
      ∧ ((1 : Nat) ≤ 29 →
          ({ namespace_id := "mine", config_id := "m" } : ConfigEvent).namespace_id ≠ "mine" →
          watch "mine" [(1, { namespace_id := "mine", config_id := "m" })] =
            (1, Res.success none))
      ∧ ((1 : Nat) > 29 →
          watch "mine" [(1, { namespace_id := "mine", config_id := "m" })] =
            (29, Res.success none))) :=
  ⟨⟨by decide, by decide⟩,
    C2_watch_single_recv "mine" 1 { namespace_id := "mine", config_id := "m" } []⟩

/-- C3: the claim (and the spec) say a heartbeat resets lost_heartbeats to
0 besides stamping the time and setting status Up.  Discovery::heartbeat
never touches lost_heartbeats: after a heartbeat at second 100 the
instance is Up with the counter still at 3, so the very next check tick
(at second 101, one second after the heartbeat) marks it Down and the next
cleanup removes it even though it is actively heartbeating, contradicting
the documented recovery behaviour.  The unknown-id branches do match the
claim: they change nothing and report NoInstanceFound. -/
theorem C3_heartbeat_code_bug :
    Discovery.heartbeat [("svc", [instSick3])] 100 "svc" "i1" =
      ([("svc", [instUp3])], HeartbeatResult.Ok)
    ∧ instUp3.status = InstanceStatus.up
    ∧ instUp3.lost_heartbeats = 3
    ∧ instUp3.is_heartbeat_timeout 101 heartbeat_timeout = false
    ∧ Discovery.checkInstance 101 heartbeat_timeout instUp3 =
        { instUp3 with status := InstanceStatus.down }
    ∧ Discovery.cleanupTick
        [("svc", [{ instUp3 with status := InstanceStatus.down }])] =
        [("svc", [])]
    ∧ Discovery.heartbeat [("svc", [instSick3])] 100 "svc" "zzz" =
        ([("svc", [instSick3])], HeartbeatResult.NoInstanceFound)
    ∧ Discovery.heartbeat [("svc", [instSick3])] 100 "nosvc" "i1" =
        ([("svc", [instSick3])], HeartbeatResult.NoInstanceFound) := by
  decide

/-- C6 counterexample: an instance that was registered at second 0, missed
the 6 s and 12 s check ticks (Sick(1), Sick(2)) and heartbeated at second
13 is in status Up with lost_heartbeats = 2 - heartbeats do not reset the
counter.  When it then stops heartbeating, the first timed-out check tick
(second 24) sets Sick(3), not Sick(1) as the claimed per-tick progression
requires, and the tick at second 30 already sets Down, so the claimed
Sick(1), Sick(2), Sick(3), Down sequence fails for this Up instance. -/
theorem C6_counterexample :
    c6AfterRecovery = [("svc", [instUp2])]
    ∧ instUp2.status = InstanceStatus.up
    ∧ instUp2.lost_heartbeats = 2
    ∧ Discovery.checkTick 24 heartbeat_timeout c6AfterRecovery =
        [("svc", [{ instUp2 with
                    lost_heartbeats := 3
                    status := InstanceStatus.sick "lost heartbeats(3)" }])]
    ∧ InstanceStatus.sick "lost heartbeats(3)" ≠
        InstanceStatus.sick "lost heartbeats(1)"
    ∧ Discovery.checkTick 30 heartbeat_timeout
        (Discovery.checkTick 24 heartbeat_timeout c6AfterRecovery) =
        [("svc", [{ instUp2 with
                    lost_heartbeats := 3
                    status := InstanceStatus.down }])] := by
  decide

/-- C6 amended: for an instance in status Up whose lost_heartbeats counter
is 0 when it stops sending heartbeats, successive timed-out check ticks
set Sick(1), Sick(2), Sick(3) while incrementing the counter by one per
tick, the following tick sets Down, and the next cleanup tick removes the
instance, after which both the full and the available instance views are
empty. -/
theorem C6_discovery_state_machine (inst : ServiceInstance) (sid : String)
    (t1 t2 t3 t4 timeout : Int)
    (_hup : inst.status = InstanceStatus.up)
    (hl : inst.lost_heartbeats = 0)
    (h1 : t1 - inst.last_heartbeat > timeout)
    (h2 : t2 - inst.last_heartbeat > timeout)
    (h3 : t3 - inst.last_heartbeat > timeout) :
    Discovery.checkInstance t1 timeout inst =
      { inst with lost_heartbeats := 1, status := InstanceStatus.sick "lost heartbeats(1)" }
    ∧ Discovery.checkInstance t2 timeout
        (Discovery.checkInstance t1 timeout inst) =
      { inst with lost_heartbeats := 2, status := InstanceStatus.sick "lost heartbeats(2)" }
    ∧ Discovery.checkInstance t3 timeout
        (Discovery.checkInstance t2 timeout
          (Discovery.checkInstance t1 timeout inst)) =
      { inst with lost_heartbeats := 3, status := InstanceStatus.sick "lost heartbeats(3)" }
    ∧ Discovery.checkInstance t4 timeout
        (Discovery.checkInstance t3 timeout
          (Discovery.checkInstance t2 timeout
            (Discovery.checkInstance t1 timeout inst))) =
      { inst with lost_heartbeats := 3, status := InstanceStatus.down }
    ∧ Discovery.cleanupTick
        [(sid, [{ inst with lost_heartbeats := 3, status := InstanceStatus.down }])] = [(sid, [])]
    ∧ Discovery.get_service_instances [(sid, ([] : List ServiceInstance))]
        sid = []
    ∧ Discovery.get_available_service_instances
        [(sid, ([] : List ServiceInstance))] sid = [] := by
  have hb1 : inst.is_heartbeat_timeout t1 timeout = true := by
    simp [ServiceInstance.is_heartbeat_timeout]
    omega
  have hb2 : inst.is_heartbeat_timeout t2 timeout = true := by
    simp [ServiceInstance.is_heartbeat_timeout]
    omega
  have hb3 : inst.is_heartbeat_timeout t3 timeout = true := by
    simp [ServiceInstance.is_heartbeat_timeout]
    omega
  have e1 : Discovery.checkInstance t1 timeout inst =
      { inst with lost_heartbeats := 1, status := InstanceStatus.sick "lost heartbeats(1)" } := by
    simp [Discovery.checkInstance, hl, hb1]
    rfl
  have e2 : Discovery.checkInstance t2 timeout
      { inst with lost_heartbeats := 1, status := InstanceStatus.sick "lost heartbeats(1)" } =
      { inst with lost_heartbeats := 2, status := InstanceStatus.sick "lost heartbeats(2)" } := by
    simp only [Discovery.checkInstance, ServiceInstance.is_heartbeat_timeout]
    norm_num
    split
    · rfl
    · exfalso
      omega
  have e3 : Discovery.checkInstance t3 timeout
      { inst with lost_heartbeats := 2, status := InstanceStatus.sick "lost heartbeats(2)" } =
      { inst with lost_heartbeats := 3, status := InstanceStatus.sick "lost heartbeats(3)" } := by
    simp only [Discovery.checkInstance, ServiceInstance.is_heartbeat_timeout]
    norm_num
    split
    · rfl
    · exfalso
      omega
  have e4 : Discovery.checkInstance t4 timeout
      { inst with lost_heartbeats := 3, status := InstanceStatus.sick "lost heartbeats(3)" } =
      { inst with lost_heartbeats := 3, status := InstanceStatus.down } := by
    simp [Discovery.checkInstance]
  refine ⟨e1, ?_, ?_, ?_, ?_, ?_, ?_⟩
  · rw [e1, e2]
  · rw [e1, e2, e3]
  · rw [e1, e2, e3, e4]
  · simp [Discovery.cleanupTick]
  · simp [Discovery.get_service_instances, Discovery.getService]
  · simp [Discovery.get_available_service_instances,
      Discovery.get_service_instances, Discovery.getService]

/-- Witness for C6 amended at the concrete timer constants: check ticks at
seconds 6, 12, 18 and 24 with the 5 s timeout. -/
theorem C6_discovery_state_machine_witness :
    (instUpFresh.status = InstanceStatus.up
      ∧ instUpFresh.lost_heartbeats = 0
      ∧ (6 : Int) - instUpFresh.last_heartbeat > heartbeat_timeout
      ∧ (12 : Int) - instUpFresh.last_heartbeat > heartbeat_timeout
      ∧ (18 : Int) - instUpFresh.last_heartbeat > heartbeat_timeout)
    ∧ (Discovery.checkInstance 6 heartbeat_timeout instUpFresh =
        { instUpFresh with lost_heartbeats := 1, status := InstanceStatus.sick "lost heartbeats(1)" }
      ∧ Discovery.checkInstance 12 heartbeat_timeout
          (Discovery.checkInstance 6 heartbeat_timeout instUpFresh) =
        { instUpFresh with lost_heartbeats := 2, status := InstanceStatus.sick "lost heartbeats(2)" }
      ∧ Discovery.checkInstance 18 heartbeat_timeout
          (Discovery.checkInstance 12 heartbeat_timeout
            (Discovery.checkInstance 6 heartbeat_timeout instUpFresh)) =
        { instUpFresh with lost_heartbeats := 3, status := InstanceStatus.sick "lost heartbeats(3)" }
      ∧ Discovery.checkInstance 24 heartbeat_timeout
          (Discovery.checkInstance 18 heartbeat_timeout
            (Discovery.checkInstance 12 heartbeat_timeout
              (Discovery.checkInstance 6 heartbeat_timeout instUpFresh))) =
        { instUpFresh with lost_heartbeats := 3, status := InstanceStatus.down }
      ∧ Discovery.cleanupTick
          [("svc", [{ instUpFresh with lost_heartbeats := 3, status := InstanceStatus.down }])] =
          [("svc", [])]
      ∧ Discovery.get_service_instances
          [("svc", ([] : List ServiceInstance))] "svc" = []
      ∧ Discovery.get_available_service_instances
          [("svc", ([] : List ServiceInstance))] "svc" = []) :=
  ⟨⟨by decide, by decide, by decide, by decide, by decide⟩,
    C6_discovery_state_machine instUpFresh "svc" 6 12 18 24
      heartbeat_timeout (by decide) (by decide) (by decide) (by decide)
      (by decide)⟩

/-- C10: the heartbeat-check tick applies the miss rule to every instance
without inspecting its status - three or more lost heartbeats force Down,
otherwise a timed-out heartbeat increments the counter and sets Sick, and
otherwise nothing changes - so an instance of any status (Ready or Offline
included) with no heartbeats is driven to Down by the fourth tick and the
following cleanup tick removes it from both instance views. -/
theorem C10_uniform_miss_rule (now timeout t1 t2 t3 t4 : Int)
    (inst : ServiceInstance) (s : InstanceStatus) (sid : String)
    (hl : inst.lost_heartbeats = 0)
    (h1 : t1 - inst.last_heartbeat > timeout)
    (h2 : t2 - inst.last_heartbeat > timeout)
    (h3 : t3 - inst.last_heartbeat > timeout) :
    (∀ j : ServiceInstance, 3 ≤ j.lost_heartbeats →
      Discovery.checkInstance now timeout j =
        { j with status := InstanceStatus.down })
    ∧ (∀ j : ServiceInstance, j.lost_heartbeats < 3 →
        j.is_heartbeat_timeout now timeout = true →
        Discovery.checkInstance now timeout j =
          { j with lost_heartbeats := j.lost_heartbeats + 1, status := InstanceStatus.sick ("lost heartbeats(" ++ toString (j.lost_heartbeats + 1) ++ ")") })
    ∧ (∀ j : ServiceInstance, j.lost_heartbeats < 3 →
        j.is_heartbeat_timeout now timeout = false →
        Discovery.checkInstance now timeout j = j)
    ∧ Discovery.checkInstance t4 timeout
        (Discovery.checkInstance t3 timeout
          (Discovery.checkInstance t2 timeout
            (Discovery.checkInstance t1 timeout { inst with status := s }))) =
      { inst with lost_heartbeats := 3, status := InstanceStatus.down }
    ∧ Discovery.cleanupTick
        [(sid, [{ inst with lost_heartbeats := 3, status := InstanceStatus.down }])] =
        [(sid, [])]
    ∧ Discovery.get_service_instances [(sid, ([] : List ServiceInstance))]
        sid = []
    ∧ Discovery.get_available_service_instances
        [(sid, ([] : List ServiceInstance))] sid = [] := by
  have r1 : ∀ j : ServiceInstance, 3 ≤ j.lost_heartbeats →
      Discovery.checkInstance now timeout j =
        { j with status := InstanceStatus.down } := by
    intro j hj
    simp [Discovery.checkInstance, hj]
  have r2 : ∀ j : ServiceInstance, j.lost_heartbeats < 3 →
      j.is_heartbeat_timeout now timeout = true →
      Discovery.checkInstance now timeout j =
        { j with lost_heartbeats := j.lost_heartbeats + 1, status := InstanceStatus.sick ("lost heartbeats(" ++ toString (j.lost_heartbeats + 1) ++ ")") } := by
    intro j hj hb
    unfold Discovery.checkInstance
    rw [if_neg (by omega), if_pos hb]
  have r3 : ∀ j : ServiceInstance, j.lost_heartbeats < 3 →
      j.is_heartbeat_timeout now timeout = false →
      Discovery.checkInstance now timeout j = j := by
    intro j hj hb
    unfold Discovery.checkInstance
    rw [if_neg (by omega), if_neg (by simp [hb])]
  have e1 : Discovery.checkInstance t1 timeout { inst with status := s } =
      { inst with lost_heartbeats := 1, status := InstanceStatus.sick "lost heartbeats(1)" } := by
    unfold Discovery.checkInstance
    split
    · rename_i hge
      simp at hge
      omega
    · split
      · simp [hl]
        rfl
      · rename_i hto
        simp [ServiceInstance.is_heartbeat_timeout] at hto
        omega
  have e2 : Discovery.checkInstance t2 timeout
      { inst with lost_heartbeats := 1, status := InstanceStatus.sick "lost heartbeats(1)" } =
      { inst with lost_heartbeats := 2, status := InstanceStatus.sick "lost heartbeats(2)" } := by
    simp only [Discovery.checkInstance, ServiceInstance.is_heartbeat_timeout]
    norm_num
    split
    · rfl
    · exfalso
      omega
  have e3 : Discovery.checkInstance t3 timeout
      { inst with lost_heartbeats := 2, status := InstanceStatus.sick "lost heartbeats(2)" } =
      { inst with lost_heartbeats := 3, status := InstanceStatus.sick "lost heartbeats(3)" } := by
    simp only [Discovery.checkInstance, ServiceInstance.is_heartbeat_timeout]
    norm_num
    split
    · rfl
    · exfalso
      omega
  have e4 : Discovery.checkInstance t4 timeout
      { inst with lost_heartbeats := 3, status := InstanceStatus.sick "lost heartbeats(3)" } =
      { inst with lost_heartbeats := 3, status := InstanceStatus.down } := by
    simp [Discovery.checkInstance]
  refine ⟨r1, r2, r3, ?_, ?_, ?_, ?_⟩
  · rw [e1, e2, e3, e4]
  · simp [Discovery.cleanupTick]
  · simp [Discovery.get_service_instances, Discovery.getService]
  · simp [Discovery.get_available_service_instances,
      Discovery.get_service_instances, Discovery.getService]

/-- Witness for C10 at an Offline instance with the concrete timers. -/
theorem C10_uniform_miss_rule_witness :
    (instReady.lost_heartbeats = 0
      ∧ (6 : Int) - instReady.last_heartbeat > heartbeat_timeout
      ∧ (12 : Int) - instReady.last_heartbeat > heartbeat_timeout
      ∧ (18 : Int) - instReady.last_heartbeat > heartbeat_timeout)
    ∧ ((∀ j : ServiceInstance, 3 ≤ j.lost_heartbeats →
        Discovery.checkInstance 0 heartbeat_timeout j =
          { j with status := InstanceStatus.down })
      ∧ (∀ j : ServiceInstance, j.lost_heartbeats < 3 →
          j.is_heartbeat_timeout 0 heartbeat_timeout = true →
          Discovery.checkInstance 0 heartbeat_timeout j =
            { j with lost_heartbeats := j.lost_heartbeats + 1, status := InstanceStatus.sick ("lost heartbeats(" ++ toString (j.lost_heartbeats + 1) ++ ")") })
      ∧ (∀ j : ServiceInstance, j.lost_heartbeats < 3 →
          j.is_heartbeat_timeout 0 heartbeat_timeout = false →
          Discovery.checkInstance 0 heartbeat_timeout j = j)
      ∧ Discovery.checkInstance 24 heartbeat_timeout
          (Discovery.checkInstance 18 heartbeat_timeout
            (Discovery.checkInstance 12 heartbeat_timeout
              (Discovery.checkInstance 6 heartbeat_timeout
                { instReady with status := InstanceStatus.offline }))) =
        { instReady with lost_heartbeats := 3, status := InstanceStatus.down }
      ∧ Discovery.cleanupTick
          [("svc", [{ instReady with lost_heartbeats := 3, status := InstanceStatus.down }])] =
          [("svc", [])]
      ∧ Discovery.get_service_instances
          [("svc", ([] : List ServiceInstance))] "svc" = []
      ∧ Discovery.get_available_service_instances
          [("svc", ([] : List ServiceInstance))] "svc" = []) :=
  ⟨⟨by decide, by decide, by decide, by decide⟩,
    C10_uniform_miss_rule 0 heartbeat_timeout 6 12 18 24 instReady
      InstanceStatus.offline "svc" (by decide) (by decide) (by decide)
      (by decide)⟩

/-- C8 counterexample: an instance whose meta stores weight 0 gets weight
0 from get_weight, below the claimed lower bound of 1 (there is no
max(1, ...) clamp in the source). -/
theorem C8_get_weight_counterexample :
    Instance.get_weight
      { id := "i", service_id := "s", ip := "1.1.1.1", port := 80,
        meta := [("weight", YamlValue.num 0)] } = some 0
    ∧ (0 : Nat) < 1 := by
  decide

/-- C8 amended: get_weight returns the weight meta value read as a u64
without any lower clamp (0 is returned as 0, so the total weight of the
weighted-random balancer can be 0), returns 1 when the key is absent, and
panics (modelled as none) when the stored value is not a u64. -/
theorem C8_get_weight (inst j k : Instance) (n : Int) (v : YamlValue)
    (h : inst.meta.find? (fun p => p.1 = "weight") =
      some ("weight", YamlValue.num n))
    (hn : 0 ≤ n)
    (hj : j.meta.find? (fun p => p.1 = "weight") = none)
    (hk : k.meta.find? (fun p => p.1 = "weight") = some ("weight", v))
    (hv : YamlValue.as_u64 v = none) :
    inst.get_weight = some n.toNat
    ∧ j.get_weight = some 1
    ∧ k.get_weight = none := by
  refine ⟨?_, ?_, ?_⟩
  · simp [Instance.get_weight, h, YamlValue.as_u64, hn]
  · simp [Instance.get_weight, hj, YamlValue.as_u64]
  · simp [Instance.get_weight, hk, hv]

/-- Witness for C8 amended at concrete instances carrying weight 7, no
weight, and a non-numeric weight. -/
theorem C8_get_weight_witness :
    (Instance.get_weight
        { id := "a", service_id := "s", ip := "1.1.1.1", port := 80,
          meta := [("weight", YamlValue.num 7)] } = some (Int.toNat 7)
      ∧ Instance.get_weight
          { id := "b", service_id := "s", ip := "1.1.1.1", port := 80,
            meta := [] } = some 1
      ∧ Instance.get_weight
          { id := "c", service_id := "s", ip := "1.1.1.1", port := 80,
            meta := [("weight", YamlValue.str "x")] } = none) :=
  C8_get_weight
    { id := "a", service_id := "s", ip := "1.1.1.1", port := 80,
      meta := [("weight", YamlValue.num 7)] }
    { id := "b", service_id := "s", ip := "1.1.1.1", port := 80,
      meta := [] }
    { id := "c", service_id := "s", ip := "1.1.1.1", port := 80,
      meta := [("weight", YamlValue.str "x")] }
    7 (YamlValue.str "x") (by decide) (by decide) (by decide) (by decide)
    (by decide)

/-- C4: the history row written by append_history (hence by both the
SetConfig and the UpdateConfig apply handlers) carries id_ equal to the
entry's base id_ plus its update time in milliseconds, and two replicas
that apply the identical committed log prefix from identical states end
with identical config_history rows. -/
theorem C4_deterministic_history_ids (st : ReplicaState) (e : ConfigEntry)
    (log : List RaftRequest) (s1 s2 : ReplicaState) (h : s1 = s2) :
    ((ConfigManager.append_history st e).config_history =
      st.config_history ++ [{ e with id_ := e.id_ + e.update_time }])
    ∧ ((applyRaftRequest st (RaftRequest.SetConfig e)).config_history =
      st.config_history ++ [{ e with id_ := e.id_ + e.update_time }])
    ∧ ((applyRaftRequest st (RaftRequest.UpdateConfig e)).config_history =
      st.config_history ++ [{ e with id_ := e.id_ + e.update_time }])
    ∧ (applyLog s1 log).config_history = (applyLog s2 log).config_history := by
  refine ⟨rfl, rfl, rfl, ?_⟩
  rw [h]

/-- C5: an upsert whose content hashes to the stored MD5 returns success
without emitting a Raft command.  Starting from a state without the key,
the first upsert emits SetConfig with the fresh entry, applying it leaves
exactly one config row and exactly one history row for the key, and the
identical second upsert emits no command and leaves the state unchanged. -/
theorem C5_md5_idempotence (md5f : String → String) (st : ReplicaState)
    (ns cid content : String) (desc : Option String) (fmt : String)
    (nid now : Int) (desc2 : Option String) (nid2 now2 : Int)
    (h0 : ConfigManager.get_config st ns cid = none)
    (h1 : ConfigManager.countHistory st ns cid = 0) :
    ConfigManager.upsert_config_and_sync md5f st ns cid content desc fmt
        nid now =
      some (RaftRequest.SetConfig
        { id_ := nid, namespace_id := ns, id := cid, content := content,
          create_time := now, update_time := now, description := desc,
          format := fmt, md5 := md5f content })
    ∧ ConfigManager.countConfigs
        (ConfigManager.upsert_then_apply md5f st ns cid content desc fmt
          nid now) ns cid = 1
    ∧ ConfigManager.countHistory
        (ConfigManager.upsert_then_apply md5f st ns cid content desc fmt
          nid now) ns cid = 1
    ∧ ConfigManager.upsert_config_and_sync md5f
        (ConfigManager.upsert_then_apply md5f st ns cid content desc fmt
          nid now) ns cid content desc2 fmt nid2 now2 = none
    ∧ ConfigManager.upsert_then_apply md5f
        (ConfigManager.upsert_then_apply md5f st ns cid content desc fmt
          nid now) ns cid content desc2 fmt nid2 now2 =
      ConfigManager.upsert_then_apply md5f st ns cid content desc fmt
        nid now := by
  have hcmd : ConfigManager.upsert_config_and_sync md5f st ns cid content
      desc fmt nid now =
      some (RaftRequest.SetConfig
        { id_ := nid, namespace_id := ns, id := cid, content := content,
          create_time := now, update_time := now, description := desc,
          format := fmt, md5 := md5f content }) := by
    simp [ConfigManager.upsert_config_and_sync, h0]
  have hfilter : st.configs.filter
      (fun c => c.namespace_id = ns && c.id = cid) = [] := by
    have := List.find?_eq_none.mp h0
    exact List.filter_eq_nil_iff.mpr this
  have hst1 : ConfigManager.upsert_then_apply md5f st ns cid content desc
      fmt nid now =
      ConfigManager.insert_config st
        { id_ := nid, namespace_id := ns, id := cid, content := content,
          create_time := now, update_time := now, description := desc,
          format := fmt, md5 := md5f content } := by
    simp [ConfigManager.upsert_then_apply, hcmd, applyRaftRequest]
  have h0' : List.find?
      (fun c => decide (c.namespace_id = ns) && decide (c.id = cid))
      st.configs = none := h0
  have hget1 : ConfigManager.get_config
      (ConfigManager.upsert_then_apply md5f st ns cid content desc fmt
        nid now) ns cid =
      some
        { id_ := nid, namespace_id := ns, id := cid, content := content,
          create_time := now, update_time := now, description := desc,
          format := fmt, md5 := md5f content } := by
    rw [hst1]
    simp [ConfigManager.get_config, ConfigManager.insert_config,
      ConfigManager.append_history, List.find?_append, h0']
  have hsecond : ConfigManager.upsert_config_and_sync md5f
      (ConfigManager.upsert_then_apply md5f st ns cid content desc fmt
        nid now) ns cid content desc2 fmt nid2 now2 = none := by
    simp [ConfigManager.upsert_config_and_sync, hget1]
  refine ⟨hcmd, ?_, ?_, hsecond, ?_⟩
  · rw [hst1]
    simp [ConfigManager.countConfigs, ConfigManager.insert_config,
      ConfigManager.append_history, List.filter_append, hfilter]
  · rw [hst1]
    simp only [ConfigManager.countHistory, ConfigManager.insert_config,
      ConfigManager.append_history, List.filter_append,
      List.length_append] at h1 ⊢
    simp [h1]
  · have h := hsecond
    revert h
    generalize ConfigManager.upsert_then_apply md5f st ns cid content desc
      fmt nid now = ST1
    intro h
    simp [ConfigManager.upsert_then_apply, h]

/-- Witness for C5 at a concrete digest function, state and inputs. -/
theorem C5_md5_idempotence_witness :
    (ConfigManager.get_config st0 "public" "t.yaml" = none
      ∧ ConfigManager.countHistory st0 "public" "t.yaml" = 0)
    ∧ (ConfigManager.upsert_config_and_sync (fun s => s) st0 "public"
        "t.yaml" "a: 1" none "yaml" 7 250 =
      some (RaftRequest.SetConfig
        { id_ := 7, namespace_id := "public", id := "t.yaml",
          content := "a: 1", create_time := 250, update_time := 250,
          description := none, format := "yaml", md5 := "a: 1" })
      ∧ ConfigManager.countConfigs
          (ConfigManager.upsert_then_apply (fun s => s) st0 "public"
            "t.yaml" "a: 1" none "yaml" 7 250) "public" "t.yaml" = 1
      ∧ ConfigManager.countHistory
          (ConfigManager.upsert_then_apply (fun s => s) st0 "public"
            "t.yaml" "a: 1" none "yaml" 7 250) "public" "t.yaml" = 1
      ∧ ConfigManager.upsert_config_and_sync (fun s => s)
          (ConfigManager.upsert_then_apply (fun s => s) st0 "public"
            "t.yaml" "a: 1" none "yaml" 7 250) "public" "t.yaml" "a: 1"
          none "yaml" 8 300 = none
      ∧ ConfigManager.upsert_then_apply (fun s => s)
          (ConfigManager.upsert_then_apply (fun s => s) st0 "public"
            "t.yaml" "a: 1" none "yaml" 7 250) "public" "t.yaml" "a: 1"
          none "yaml" 8 300 =
        ConfigManager.upsert_then_apply (fun s => s) st0 "public" "t.yaml"
          "a: 1" none "yaml" 7 250) :=
  ⟨⟨by decide, by decide⟩,
    C5_md5_idempotence (fun s => s) st0 "public" "t.yaml" "a: 1" none
      "yaml" 7 250 none 8 300 (by decide) (by decide)⟩

/-- Witness for C4 at a concrete entry, state and log. -/
theorem C4_deterministic_history_ids_witness :
    st0 = st0
    ∧ (((ConfigManager.append_history st0 entry0).config_history =
        st0.config_history ++ [{ entry0 with id_ := entry0.id_ + entry0.update_time }])
      ∧ ((applyRaftRequest st0 (RaftRequest.SetConfig entry0)).config_history =
        st0.config_history ++ [{ entry0 with id_ := entry0.id_ + entry0.update_time }])
      ∧ ((applyRaftRequest st0 (RaftRequest.UpdateConfig entry0)).config_history =
        st0.config_history ++ [{ entry0 with id_ := entry0.id_ + entry0.update_time }])
      ∧ (applyLog st0 [RaftRequest.Set "k" "v"]).config_history =
          (applyLog st0 [RaftRequest.Set "k" "v"]).config_history) :=
  ⟨rfl, C4_deterministic_history_ids st0 entry0 [RaftRequest.Set "k" "v"]
    st0 st0 rfl⟩

/-- Lookup after mergeIntoExisting: the entries keeping the key are merged
with the new value, every other entry is untouched. -/
theorem find_mergeIntoExisting : ∀ (t : YamlMap) (k v key : YamlValue),
    (mergeIntoExisting t k v).find key =
      (t.find key).map (fun w => if key = k then mergeYamlValues w v else w)
  | YamlMap.nil, k, v, key => by
    simp [mergeIntoExisting, YamlMap.find]
  | YamlMap.cons k0 v0 tail, k, v, key => by
    by_cases h0 : k0 = k
    · subst h0
      by_cases hk : k0 = key
      · subst hk
        simp [mergeIntoExisting, YamlMap.find]
      · simp [mergeIntoExisting, YamlMap.find, hk,
          find_mergeIntoExisting tail k0 v key]
    · by_cases hk : k0 = key
      · subst hk
        have hkk : ¬(k0 = k) := h0
        simp [mergeIntoExisting, YamlMap.find, h0, hkk]
      · simp [mergeIntoExisting, YamlMap.find, h0, hk,
          find_mergeIntoExisting tail k v key]

/-- Lookup after appending a fresh entry at the end: existing entries
shadow it, otherwise the new entry is found under its key. -/
theorem find_append : ∀ (t : YamlMap) (k v key : YamlValue),
    (t.append k v).find key =
      (match t.find key with
        | some w => some w
        | none => if k = key then some v else none)
  | YamlMap.nil, k, v, key => by
    simp [YamlMap.append, YamlMap.find]
  | YamlMap.cons k0 v0 tail, k, v, key => by
    by_cases hk : k0 = key
    · subst hk
      simp [YamlMap.append, YamlMap.find]
    · simp [YamlMap.append, YamlMap.find, hk, find_append tail k v key]

/-- containsKey agrees with find returning a value. -/
theorem containsKey_eq_isSome : ∀ (t : YamlMap) (k : YamlValue),
    t.containsKey k = (t.find k).isSome
  | YamlMap.nil, k => by simp [YamlMap.containsKey, YamlMap.find]
  | YamlMap.cons k0 v0 tail, k => by
    by_cases hk : k0 = k
    · subst hk
      simp [YamlMap.containsKey, YamlMap.find]
    · simp [YamlMap.containsKey, YamlMap.find, hk,
        containsKey_eq_isSome tail k]

/-- A key outside the key list is not found. -/
theorem find_eq_none_of_not_mem_keys : ∀ (t : YamlMap) (k : YamlValue),
    k ∉ t.keys → t.find k = none
  | YamlMap.nil, k, _ => by simp [YamlMap.find]
  | YamlMap.cons k0 v0 tail, k, h => by
    have h0 : ¬(k0 = k) := by
      intro he
      exact h (by simp [YamlMap.keys, he])
    have ht : k ∉ tail.keys := by
      intro hm
      exact h (by simp [YamlMap.keys, hm])
    simp [YamlMap.find, h0, find_eq_none_of_not_mem_keys tail k ht]

/-- The pointwise description of Configs::merge_yaml_values on mappings
whose source has pairwise distinct keys: a key present in both maps is
merged recursively (which replaces unless both values are mappings), a key
in only one map keeps its value, and an absent key stays absent. -/
theorem find_mergeEntries : ∀ (s t : YamlMap) (k : YamlValue),
    s.keys.Nodup →
    (mergeEntries t s).find k =
      (match t.find k, s.find k with
        | some tv, some sv => some (mergeYamlValues tv sv)
        | some tv, none => some tv
        | none, some sv => some sv
        | none, none => none)
  | YamlMap.nil, t, k, _ => by
    cases h : t.find k <;> simp [mergeEntries, YamlMap.find, h]
  | YamlMap.cons k0 v0 rest, t, k, hnd => by
    have hpair := List.nodup_cons.mp (by simpa [YamlMap.keys] using hnd)
    obtain ⟨hk0nm, hndrest⟩ := hpair
    have hstep : mergeEntries t (YamlMap.cons k0 v0 rest) =
        mergeEntries
          (if t.containsKey k0 then mergeIntoExisting t k0 v0
            else t.append k0 v0) rest := by
      simp [mergeEntries]
    rw [hstep,
      find_mergeEntries rest
        (if t.containsKey k0 then mergeIntoExisting t k0 v0
          else t.append k0 v0) k hndrest]
    by_cases hk : k0 = k
    · subst hk
      have hrest : rest.find k0 = none :=
        find_eq_none_of_not_mem_keys rest k0 hk0nm
      rw [hrest]
      by_cases hc : t.containsKey k0
      · have hsome : (t.find k0).isSome := by
          rw [← containsKey_eq_isSome]
          exact hc
        obtain ⟨tv, htv⟩ := Option.isSome_iff_exists.mp hsome
        rw [if_pos hc, find_mergeIntoExisting t k0 v0 k0, htv]
        simp [YamlMap.find]
      · have hnone : t.find k0 = none := by
          have := containsKey_eq_isSome t k0
          rw [Bool.eq_iff_iff] at this
          simp [hc] at this
          exact this
        rw [if_neg hc, find_append t k0 v0 k0, hnone]
        simp [YamlMap.find]
    · have hfs : (YamlMap.cons k0 v0 rest).find k = rest.find k := by
        simp [YamlMap.find, hk]
      have ht2 : (if t.containsKey k0 then mergeIntoExisting t k0 v0
          else t.append k0 v0).find k = t.find k := by
        by_cases hc : t.containsKey k0
        · rw [if_pos hc, find_mergeIntoExisting t k0 v0 k]
          have hkk0 : ¬(k = k0) := fun he => hk he.symm
          cases h : t.find k <;> simp [hkk0]
        · rw [if_neg hc, find_append t k0 v0 k]
          have hkk0 : ¬(k0 = k) := hk
          cases h : t.find k <;> simp [hkk0]
      rw [ht2, hfs]

/-- C9: merging a list of documents folds them in order, recursing when
both values under a key are mappings and letting the later value replace
the earlier otherwise; the flattener renders string keys verbatim and
numeric keys via to_string, renders every other key as unknown, treats
every non-mapping value as a leaf, and in particular flattening
a.(b.(c.1)) yields exactly the single binding a.b.c to 1, while merging
the listed documents a:1,b:(x:1) and b:(x:2,y:3) yields a:1,b:(x:2,y:3). -/
theorem C9_merge_and_flatten (t s : YamlMap) (k : YamlValue)
    (acc : List (String × YamlValue)) (pre : String) (v : YamlValue)
    (hs : s.keys.Nodup) (hv : v.isMapping = false) :
    ((mergeEntries t s).find k =
      (match t.find k, s.find k with
        | some tv, some sv => some (mergeYamlValues tv sv)
        | some tv, none => some tv
        | none, some sv => some sv
        | none, none => none))
    ∧ (∀ a b : YamlValue, a.isMapping = false ∨ b.isMapping = false →
        mergeYamlValues a b = b)
    ∧ (∀ n : Int, yamlKeyStr (YamlValue.num n) = toString n)
    ∧ (∀ s2 : String, yamlKeyStr (YamlValue.str s2) = s2)
    ∧ (∀ b2 : Bool, yamlKeyStr (YamlValue.bool b2) = "unknown")
    ∧ yamlKeyStr YamlValue.null = "unknown"
    ∧ flattenYamlValue acc pre v = insertFlat acc pre v
    ∧ Configs.from_contents [abcDoc] =
        { configs := [("a.b.c", YamlValue.num 1)], content := abcDoc }
    ∧ Configs.from_contents [docA, docB] =
        { configs := [("a", YamlValue.num 1), ("b.x", YamlValue.num 2),
            ("b.y", YamlValue.num 3)], content := docAB } := by
  refine ⟨find_mergeEntries s t k hs, ?_, fun n => rfl, fun s2 => rfl,
    fun b2 => rfl, rfl, ?_, ?_, ?_⟩
  · intro a b h
    cases a <;> cases b <;> simp_all [mergeYamlValues, YamlValue.isMapping]
  · cases v <;> simp_all [flattenYamlValue, YamlValue.isMapping]
  · simp [Configs.from_contents, mergeYamlValues, mergeEntries,
      mergeIntoExisting, flattenYamlValue, flattenEntries,
      YamlMap.containsKey, YamlMap.append, insertFlat, yamlKeyStr, abcDoc]
  · simp [Configs.from_contents, mergeYamlValues, mergeEntries,
      mergeIntoExisting, flattenYamlValue, flattenEntries,
      YamlMap.containsKey, YamlMap.append, insertFlat, yamlKeyStr,
      docA, docB, docAB]

/-- Witness for C9 at the empty target and source mappings and a null
leaf. -/
theorem C9_merge_and_flatten_witness :
    ((YamlMap.nil.keys.Nodup ∧ YamlValue.null.isMapping = false))
    ∧ (((mergeEntries YamlMap.nil YamlMap.nil).find YamlValue.null =
        (match YamlMap.nil.find YamlValue.null,
            YamlMap.nil.find YamlValue.null with
          | some tv, some sv => some (mergeYamlValues tv sv)
          | some tv, none => some tv
          | none, some sv => some sv
          | none, none => none))
      ∧ (∀ a b : YamlValue, a.isMapping = false ∨ b.isMapping = false →
          mergeYamlValues a b = b)
      ∧ (∀ n : Int, yamlKeyStr (YamlValue.num n) = toString n)
      ∧ (∀ s2 : String, yamlKeyStr (YamlValue.str s2) = s2)
      ∧ (∀ b2 : Bool, yamlKeyStr (YamlValue.bool b2) = "unknown")
      ∧ yamlKeyStr YamlValue.null = "unknown"
      ∧ flattenYamlValue [] "" YamlValue.null =
          insertFlat [] "" YamlValue.null
      ∧ Configs.from_contents [abcDoc] =
          { configs := [("a.b.c", YamlValue.num 1)], content := abcDoc }
      ∧ Configs.from_contents [docA, docB] =
          { configs := [("a", YamlValue.num 1), ("b.x", YamlValue.num 2),
              ("b.y", YamlValue.num 3)], content := docAB }) :=
  ⟨⟨by simp [YamlMap.keys], by simp [YamlValue.isMapping]⟩,
    C9_merge_and_flatten YamlMap.nil YamlMap.nil YamlValue.null [] ""
      YamlValue.null (by simp [YamlMap.keys]) (by simp [YamlValue.isMapping])⟩

end Conreg
